import Mathlib

/-!
Verification of the `uhh` TUI application (src/app.rs, src/infer.rs, src/main.rs)
against its natural-language specification.

Texts are modelled as `List Char` (Unicode scalar values), matching the spec's
data model ("mutable ordered sequences of characters (UTF-8 scalar values)");
cursor indices are `Nat` character indices.  The event-driven state machine of
`App` is embedded as pure transition functions that return the updated state
together with the events posted and the background tasks spawned during the
transition.
-/

namespace Uhh

/-- Unicode White_Space test, translated from Rust `char::is_whitespace`
(used by `str::trim` / `str::is_empty` checks in app.rs). -/
def rustIsWhitespace (c : Char) : Bool :=
  c.toNat = 0x09 ∨ c.toNat = 0x0A ∨ c.toNat = 0x0B ∨ c.toNat = 0x0C ∨
  c.toNat = 0x0D ∨ c.toNat = 0x20 ∨ c.toNat = 0x85 ∨ c.toNat = 0xA0 ∨
  c.toNat = 0x1680 ∨ (0x2000 ≤ c.toNat ∧ c.toNat ≤ 0x200A) ∨
  c.toNat = 0x2028 ∨ c.toNat = 0x2029 ∨ c.toNat = 0x202F ∨
  c.toNat = 0x205F ∨ c.toNat = 0x3000

/-- Rust `str::trim`: remove leading and trailing whitespace. -/
def rustTrim (l : List Char) : List Char :=
  ((l.dropWhile rustIsWhitespace).reverse.dropWhile rustIsWhitespace).reverse

/-- Rust `str::starts_with(c : char)`. -/
def startsWithChar (l : List Char) (c : Char) : Bool :=
  match l with
  | [] => false
  | x :: _ => x = c

/-- Rust `String::insert` at character granularity: place `c` at index `i`
(appends at the end when `i` exceeds the length). -/
def insertAt (l : List Char) (i : Nat) (c : Char) : List Char :=
  l.take i ++ [c] ++ l.drop i

/-- Rust `String::remove` at character granularity: drop the character at
index `i`. -/
def removeAt (l : List Char) (i : Nat) : List Char :=
  l.take i ++ l.drop (i + 1)

/-- Naive substring test: does `pat` occur contiguously inside `l`? -/
def containsSubstr (pat l : List Char) : Bool :=
  l.tails.any (fun t => pat.isPrefixOf t)

/-- `SafetyStatus` from app.rs.  The source's third constructor name collides
with a reserved word here, so it is rendered `NotSafe`. -/
inductive SafetyStatus where
  | Unknown
  | Safe
  | NotSafe
deriving DecidableEq, Repr

/-- The Session State fields of `App` (app.rs).  The `events` handle and the
`client` handle are not data: posting events and spawning tasks are modelled
as explicit outputs of the transition functions below. -/
structure App where
  running : Bool
  focused_pane : Nat
  input_text : List Char
  response_text : List Char
  safety_check_text : List Char
  input_cursor : Nat
  response_cursor : Nat
  is_loading_completion : Bool
  is_loading_safety_check : Bool
  safety_status : SafetyStatus
deriving DecidableEq, Repr

/-- The `App::default` field values (app.rs): running, pane 0, empty buffers,
cursors 0, no loads in flight, safety unknown. -/
def initApp : App :=
  { running := true
    focused_pane := 0
    input_text := []
    response_text := []
    safety_check_text := []
    input_cursor := 0
    response_cursor := 0
    is_loading_completion := false
    is_loading_safety_check := false
    safety_status := SafetyStatus.Unknown }

/-- `AppEvent` from the event module, as enumerated by the spec and consumed
in `App::run`. -/
inductive AppEvent where
  | Quit
  | RequestCompletion (text : List Char)
  | CompletionResponse (text : List Char)
  | CompletionError (msg : List Char)
  | SafetyCheckResponse (text : List Char)
  | SafetyCheckError (msg : List Char)
  | ExecuteCommand (text : List Char)
deriving DecidableEq, Repr

/-- Key codes relevant to `App::handle_key_events`; `Other` stands for every
code that falls into the wildcard arm. -/
inductive KeyCode where
  | Esc
  | Up
  | Down
  | Enter
  | Char (c : Char)
  | Backspace
  | Other
deriving DecidableEq, Repr

/-- A key event: its code, and whether the modifier set equals CONTROL
(the only modifier the source inspects). -/
structure KeyEvent where
  code : KeyCode
  ctrl : Bool
deriving DecidableEq, Repr

/-- Background tasks spawned by the state machine (`tokio::spawn` sites in
app.rs): a completion request or a safety check, each carrying its input. -/
inductive SpawnedTask where
  | completionTask (input : List Char)
  | safetyCheckTask (input : List Char)
deriving DecidableEq, Repr

/-- `App::handle_key_events` (app.rs).  Modelled from the spec: the
`EventHandler::send` handle (the Event Multiplexer, whose source file is not
under src/) performs a non-blocking enqueue preserving send order, so the
events posted during the handler are returned as a list, in send order.
The state component carries every Session State mutation the handler makes. -/
def handle_key_events (app : App) (k : KeyEvent) : App × List AppEvent :=
  match k.code with
  | KeyCode.Esc => (app, [AppEvent.Quit])
  | KeyCode.Up =>
      ({ app with focused_pane := if app.focused_pane = 0 then 1 else 0 }, [])
  | KeyCode.Down =>
      ({ app with focused_pane := if app.focused_pane = 0 then 1 else 0 }, [])
  | KeyCode.Enter =>
      if app.focused_pane = 0 then
        (app, [AppEvent.RequestCompletion app.input_text])
      else if app.focused_pane = 1 then
        (app, [AppEvent.ExecuteCommand app.response_text])
      else (app, [])
  | KeyCode.Char c =>
      if k.ctrl ∧ (c = 'c' ∨ c = 'C') then (app, [AppEvent.Quit])
      else if app.focused_pane = 0 then
        ({ app with
            input_text := insertAt app.input_text app.input_cursor c
            input_cursor := app.input_cursor + 1 }, [])
      else if app.focused_pane = 1 then
        ({ app with
            response_text := insertAt app.response_text app.response_cursor c
            response_cursor := app.response_cursor + 1 }, [])
      else (app, [])
  | KeyCode.Backspace =>
      if app.focused_pane = 0 then
        (if app.input_cursor > 0 then
          { app with
              input_cursor := app.input_cursor - 1
              input_text := removeAt app.input_text (app.input_cursor - 1) }
         else app, [])
      else if app.focused_pane = 1 then
        (if app.response_cursor > 0 then
          { app with
              response_cursor := app.response_cursor - 1
              response_text := removeAt app.response_text (app.response_cursor - 1) }
         else app, [])
      else (app, [])
  | KeyCode.Other => (app, [])

/-- Apply a list of key events in order, keeping only the state
(`App::handle_key_events` iterated by the main loop). -/
def run_keys (app : App) : List KeyEvent → App
  | [] => app
  | k :: ks => run_keys (handle_key_events app k).1 ks

/-- `App::check_completion_request` (app.rs): set the safety-check loading
flag and spawn a safety-check task over `input`. -/
def check_completion_request (app : App) (input : List Char) :
    App × List SpawnedTask :=
  ({ app with is_loading_safety_check := true },
   [SpawnedTask.safetyCheckTask input])

/-- `App::handle_completion_request` (app.rs): empty-after-trim input is a
no-op; otherwise set the loading flag, reset the safety status and spawn a
completion task. -/
def handle_completion_request (app : App) (input : List Char) :
    App × List SpawnedTask :=
  if (rustTrim input).isEmpty then (app, [])
  else
    ({ app with
        is_loading_completion := true
        safety_status := SafetyStatus.Unknown },
     [SpawnedTask.completionTask input])

/-- `App::execute_command` (app.rs): empty-after-trim command is a no-op
returning `Ok`; otherwise the terminal is restored and the process image is
replaced by `sh -c command` (never returning on success), recorded here as
`some command`. -/
def execute_command (app : App) (command : List Char) :
    App × Option (List Char) :=
  if (rustTrim command).isEmpty then (app, none)
  else (app, some command)

/-- The outcome of consuming one `AppEvent` in `App::run`: the new state, the
background tasks spawned, and the process-replacement request if any. -/
structure StepOut where
  state : App
  spawned : List SpawnedTask
  execCmd : Option (List Char)
deriving DecidableEq, Repr

/-- The `Event::App` arm of the main loop in `App::run` (app.rs). -/
def apply_app_event (app : App) (ev : AppEvent) : StepOut :=
  match ev with
  | AppEvent.Quit => ⟨{ app with running := false }, [], none⟩
  | AppEvent.RequestCompletion input =>
      let r := handle_completion_request app input
      ⟨r.1, r.2, none⟩
  | AppEvent.CompletionResponse response =>
      let app1 := { app with
        is_loading_completion := false
        response_text := response
        response_cursor := response.length }
      let r := check_completion_request app1 response
      ⟨r.1, r.2, none⟩
  | AppEvent.CompletionError error =>
      let t := "Error: ".data ++ error
      ⟨{ app with
          is_loading_completion := false
          response_text := t
          response_cursor := t.length }, [], none⟩
  | AppEvent.SafetyCheckResponse response =>
      ⟨{ app with
          is_loading_safety_check := false
          safety_check_text := response
          safety_status :=
            if startsWithChar (rustTrim response) 'Y' then SafetyStatus.Safe
            else if startsWithChar (rustTrim response) 'N' then SafetyStatus.NotSafe
            else SafetyStatus.Unknown }, [], none⟩
  | AppEvent.SafetyCheckError error =>
      ⟨{ app with
          is_loading_safety_check := false
          safety_check_text := "Safety check error: ".data ++ error
          safety_status := SafetyStatus.Unknown }, [], none⟩
  | AppEvent.ExecuteCommand command =>
      let r := execute_command app command
      ⟨r.1, [], r.2⟩

/-- `Message` from infer.rs. -/
structure Message where
  role : List Char
  content : List Char
deriving DecidableEq, Repr

/-- `Choice` from infer.rs. -/
structure Choice where
  message : Message
deriving DecidableEq, Repr

/-- The decoded completion response body (`CompletionResponse` in infer.rs;
renamed to avoid the clash with the `AppEvent` constructor). -/
structure CompletionBody where
  choices : List Choice
deriving DecidableEq, Repr

/-- `InferenceEngine` configuration (infer.rs); the HTTP client handle holds
no data relevant to the claims. -/
structure InferenceEngine where
  api_key : List Char
  base_url : List Char
  model_ident : List Char
  input : Option (List Char)
  output : Option (List Char)
deriving DecidableEq, Repr

/-- The fixed system instruction of `InferenceEngine::imagine_command`
(infer.rs line 86), verbatim, typo included. -/
def imagineBasePrompt : List Char :=
  ("You are system designed to emit bash commands, fulfilling the user's request. To achieve your goal, emit a single line command and only that command to achieve the user's request. When possible, use verbose command switches, to convey intent. You can safely assume whatever programs needed to achieve your goal are avaiable to you, such as jq ffmpeg, etc. When emitting your command, emit only the command, with no markdown formatting\n").data

/-- The system prompt built by `InferenceEngine::imagine_command`: the base
prompt, then one appended line per configured path hint.  Both appended lines
use the same literal, exactly as in the source (the `input` branch also says
"An output path has been provided"). -/
def imagine_system_prompt (eng : InferenceEngine) : List Char :=
  let p1 :=
    match eng.input with
    | some i =>
        imagineBasePrompt ++
          (("An output path has been provided, it is ").data ++ i ++ ("\n").data)
    | none => imagineBasePrompt
  match eng.output with
  | some o =>
      p1 ++ (("An output path has been provided, it is ").data ++ o ++ ("\n").data)
  | none => p1

/-- The two messages of the `imagine_command` request: the system prompt and
the user's instruction. -/
def imagine_messages (eng : InferenceEngine) (request : List Char) : List Message :=
  [{ role := ("system").data, content := imagine_system_prompt eng },
   { role := ("user").data, content := request }]

/-- Canonical reason phrases of HTTP status codes, from the `http` crate's
`StatusCode::canonical_reason` (the external dependency used by infer.rs via
reqwest), restricted to common codes; unknown codes display the
crate's fallback text. -/
def canonicalReason (status : Nat) : List Char :=
  if status = 200 then ("OK").data
  else if status = 201 then ("Created").data
  else if status = 204 then ("No Content").data
  else if status = 301 then ("Moved Permanently").data
  else if status = 302 then ("Found").data
  else if status = 400 then ("Bad Request").data
  else if status = 401 then ("Unauthorized").data
  else if status = 403 then ("Forbidden").data
  else if status = 404 then ("Not Found").data
  else if status = 429 then ("Too Many Requests").data
  else if status = 500 then ("Internal Server Error").data
  else if status = 502 then ("Bad Gateway").data
  else if status = 503 then ("Service Unavailable").data
  else ("<unknown status code>").data

/-- `Display` for `http::StatusCode` (external dependency): the decimal code,
a space, and the canonical reason — so status 500 renders as
"500 Internal Server Error". -/
def statusDisplay (status : Nat) : List Char :=
  (Nat.repr status).data ++ (" ").data ++ canonicalReason status

/-- The error message built by `InferenceEngine::completion` (infer.rs lines
71-79) when the response status is not a success: the eyre report text
`format!("API request failed with status {}: {}", status, text)`. -/
def completionErrorMessage (status : Nat) (body : List Char) : List Char :=
  ("API request failed with status ").data ++ statusDisplay status ++
    (": ").data ++ body

/-- Outcome of the HTTP exchange in `InferenceEngine::completion`: a decoded
success body, or a non-success status with its body text. -/
inductive CompletionOutcome where
  | ok (body : CompletionBody)
  | httpError (status : Nat) (body : List Char)
deriving DecidableEq, Repr

/-- `InferenceEngine::completion` result shaping: success passes the decoded
body through; a non-success status becomes the descriptive error. -/
def completion_result : CompletionOutcome → Except (List Char) CompletionBody
  | CompletionOutcome.ok body => Except.ok body
  | CompletionOutcome.httpError status text =>
      Except.error (completionErrorMessage status text)

/-- The single event posted by the background task spawned in
`App::handle_completion_request` (app.rs lines 180-197), as a function of the
`imagine_command` result: the first choice's content on success, the error
"No response received" when the choices list is empty, and the stringified
error on failure.  Each branch posts exactly one event. -/
def completion_task_event (r : Except (List Char) CompletionBody) : AppEvent :=
  match r with
  | Except.ok body =>
      match body.choices.head? with
      | some choice => AppEvent.CompletionResponse choice.message.content
      | none => AppEvent.CompletionError ("No response received").data
  | Except.error e => AppEvent.CompletionError e

/-- The single event posted by the background task spawned in
`App::check_completion_request` (app.rs lines 208-225), as a function of the
`inspect_command` result. -/
def safety_task_event (r : Except (List Char) CompletionBody) : AppEvent :=
  match r with
  | Except.ok body =>
      match body.choices.head? with
      | some choice => AppEvent.SafetyCheckResponse choice.message.content
      | none => AppEvent.SafetyCheckError ("No safety check response received").data
  | Except.error e => AppEvent.SafetyCheckError e

/-- Cursor-in-bounds invariant of the two editable panes (spec data model:
`0 ≤ cursor ≤ length`; the lower bound is inherent in `Nat`). -/
def bufferInvariant (app : App) : Prop :=
  app.input_cursor ≤ app.input_text.length ∧
  app.response_cursor ≤ app.response_text.length

/-- Inserting at any index grows the list by exactly one element. -/
theorem length_insertAt (l : List Char) (i : Nat) (c : Char) :
    (insertAt l i c).length = l.length + 1 := by
  simp [insertAt]
  omega

/-- Removing at an in-bounds index shrinks the list by exactly one element. -/
theorem length_removeAt (l : List Char) (i : Nat) (h : i < l.length) :
    (removeAt l i).length = l.length - 1 := by
  simp [removeAt]
  omega

/-- Every single key event preserves the cursor-in-bounds invariant. -/
theorem key_preserves_bufferInvariant (app : App) (k : KeyEvent)
    (h : bufferInvariant app) : bufferInvariant (handle_key_events app k).1 := by
  obtain ⟨h1, h2⟩ := h
  obtain ⟨code, ctrl⟩ := k
  cases code <;>
    simp only [handle_key_events, bufferInvariant] <;>
    first
      | exact ⟨h1, h2⟩
      | (split_ifs <;> refine ⟨?_, ?_⟩ <;>
          simp_all [insertAt, removeAt] <;> omega)

/-- Running any sequence of key events preserves the cursor-in-bounds
invariant. -/
theorem run_keys_bufferInvariant (ks : List KeyEvent) (app : App)
    (h : bufferInvariant app) : bufferInvariant (run_keys app ks) := by
  induction ks generalizing app with
  | nil => exact h
  | cons k ks ih => exact ih _ (key_preserves_bufferInvariant app k h)

/-- A single key-event step keeps the focused pane in the two-value range. -/
theorem focused_pane_step (app : App) (k : KeyEvent)
    (h : app.focused_pane = 0 ∨ app.focused_pane = 1) :
    (handle_key_events app k).1.focused_pane = 0 ∨
    (handle_key_events app k).1.focused_pane = 1 := by
  obtain ⟨code, ctrl⟩ := k
  cases code <;>
    simp only [handle_key_events] <;>
    first
      | exact h
      | (split_ifs <;> simp_all)

/-- Any run of key events from a two-value focused pane keeps it two-valued. -/
theorem run_keys_pane (ks : List KeyEvent) (app : App)
    (h : app.focused_pane = 0 ∨ app.focused_pane = 1) :
    (run_keys app ks).focused_pane = 0 ∨ (run_keys app ks).focused_pane = 1 := by
  induction ks generalizing app with
  | nil => exact h
  | cons k ks ih => exact ih _ (focused_pane_step app k h)

/-- C1: consuming `SafetyCheckResponse(text)` clears the safety-check loading
flag, stores the untrimmed text in the safety buffer, and derives the safety
status purely from the trimmed text: leading 'Y' gives Safe, leading 'N'
gives Unsafe (rendered `NotSafe` here), anything else gives Unknown. -/
theorem safety_response_transition (app : App) (text : List Char) :
    (apply_app_event app (AppEvent.SafetyCheckResponse text)).state.is_loading_safety_check
        = false ∧
    (apply_app_event app (AppEvent.SafetyCheckResponse text)).state.safety_check_text
        = text ∧
    (apply_app_event app (AppEvent.SafetyCheckResponse text)).state.safety_status =
      (if startsWithChar (rustTrim text) 'Y' then SafetyStatus.Safe
       else if startsWithChar (rustTrim text) 'N' then SafetyStatus.NotSafe
       else SafetyStatus.Unknown) :=
  ⟨rfl, rfl, rfl⟩

/-- C2: after every prefix of any sequence of key events (character inserts
and backspaces included) applied to a state satisfying the cursor invariant
`0 ≤ cursor ≤ length` on both editable buffers, the invariant still holds. -/
theorem cursor_invariant_after_each_key (app : App) (ks pre suf : List KeyEvent)
    (h : bufferInvariant app) (_hsplit : ks = pre ++ suf) :
    bufferInvariant (run_keys app pre) :=
  run_keys_bufferInvariant pre app h

/-- Witness for C2 at the initial state with the sequence [insert 'a',
backspace], checked after its first event. -/
theorem cursor_invariant_after_each_key_witness :
    bufferInvariant initApp ∧
    bufferInvariant (run_keys initApp [⟨KeyCode.Char 'a', false⟩]) :=
  ⟨⟨Nat.zero_le _, Nat.zero_le _⟩,
   cursor_invariant_after_each_key initApp
     [⟨KeyCode.Char 'a', false⟩, ⟨KeyCode.Backspace, false⟩]
     [⟨KeyCode.Char 'a', false⟩] [⟨KeyCode.Backspace, false⟩]
     ⟨Nat.zero_le _, Nat.zero_le _⟩ rfl⟩

/-- C3: consuming `CompletionResponse(text)` clears the completion loading
flag, stores `text` with the response cursor at the end, sets the
safety-check loading flag, and spawns exactly one safety-check task whose
input is that same text verbatim. -/
theorem completion_response_transition (app : App) (text : List Char) :
    apply_app_event app (AppEvent.CompletionResponse text) =
      ⟨{ app with
          is_loading_completion := false
          response_text := text
          response_cursor := text.length
          is_loading_safety_check := true },
        [SpawnedTask.safetyCheckTask text], none⟩ :=
  rfl

set_option maxRecDepth 40000 in
/-- C4 counterexample: at the initial state, the state left by the error
event produced for HTTP status 500 with body "rate limited" does not carry
the claimed response text "Error: API request failed with status 500: rate
limited" — the status renders with its canonical reason phrase. -/
theorem http500_message_counterexample :
    (apply_app_event initApp (completion_task_event (completion_result
        (CompletionOutcome.httpError 500 ("rate limited").data)))).state.response_text ≠
      ("Error: API request failed with status 500: rate limited").data := by
  decide

set_option maxRecDepth 40000 in
/-- C4 amended: for any prior state, the error event produced for HTTP status
500 with body "rate limited" leaves response_text equal to "Error: API
request failed with status 500 Internal Server Error: rate limited" and
is_loading_completion false. -/
theorem http500_message_amended (app : App) :
    (apply_app_event app (completion_task_event (completion_result
        (CompletionOutcome.httpError 500 ("rate limited").data)))).state.response_text =
      ("Error: API request failed with status 500 Internal Server Error: rate limited").data ∧
    (apply_app_event app (completion_task_event (completion_result
        (CompletionOutcome.httpError 500 ("rate limited").data)))).state.is_loading_completion =
      false :=
  ⟨rfl, rfl⟩

/-- C5: consuming `RequestCompletion(input)` with input non-empty after
trimming sets the completion loading flag, resets the safety status to
Unknown (whatever it was before), and spawns exactly one background
completion task over the input. -/
theorem request_completion_transition (app : App) (input : List Char)
    (h : (rustTrim input).isEmpty = false) :
    apply_app_event app (AppEvent.RequestCompletion input) =
      ⟨{ app with
          is_loading_completion := true
          safety_status := SafetyStatus.Unknown },
        [SpawnedTask.completionTask input], none⟩ := by
  simp [apply_app_event, handle_completion_request, h]

set_option maxRecDepth 4000 in
/-- Witness for C5 at the initial state with input "ls". -/
theorem request_completion_transition_witness :
    apply_app_event initApp (AppEvent.RequestCompletion ("ls").data) =
      ⟨{ initApp with
          is_loading_completion := true
          safety_status := SafetyStatus.Unknown },
        [SpawnedTask.completionTask ("ls").data], none⟩ :=
  request_completion_transition initApp (("ls").data) (by decide)

/-- C6: an Enter key event while the input pane is focused posts exactly one
`RequestCompletion` event carrying the current input text verbatim, and
leaves the whole Session State unchanged. -/
theorem enter_posts_request_completion (app : App) (ctrl : Bool)
    (h : app.focused_pane = 0) :
    handle_key_events app { code := KeyCode.Enter, ctrl := ctrl } =
      (app, [AppEvent.RequestCompletion app.input_text]) := by
  simp [handle_key_events, h]

/-- Witness for C6 at the initial state. -/
theorem enter_posts_request_completion_witness :
    initApp.focused_pane = 0 ∧
    handle_key_events initApp { code := KeyCode.Enter, ctrl := false } =
      (initApp, [AppEvent.RequestCompletion initApp.input_text]) :=
  ⟨rfl, enter_posts_request_completion initApp false rfl⟩

/-- C7: a `RequestCompletion` or `ExecuteCommand` event whose text is empty
after trimming is a silent no-op: the state (all flags, buffers, cursors and
the running bit) is unchanged, no task is spawned and no process replacement
is requested. -/
theorem blank_submission_noop (app : App) (input : List Char)
    (h : (rustTrim input).isEmpty = true) :
    apply_app_event app (AppEvent.RequestCompletion input) = ⟨app, [], none⟩ ∧
    apply_app_event app (AppEvent.ExecuteCommand input) = ⟨app, [], none⟩ := by
  constructor <;>
    simp [apply_app_event, handle_completion_request, execute_command, h]

set_option maxRecDepth 4000 in
/-- Witness for C7 with a whitespace-only submission. -/
theorem blank_submission_noop_witness :
    apply_app_event initApp (AppEvent.RequestCompletion ("  ").data) =
        ⟨initApp, [], none⟩ ∧
    apply_app_event initApp (AppEvent.ExecuteCommand ("  ").data) =
        ⟨initApp, [], none⟩ :=
  blank_submission_noop initApp (("  ").data) (by decide)

/-- C8: an Up or Down key event toggles the focused pane between the two
values 0 (Input) and 1 (Output): from 0 it lands on 1 and from 1 on 0, the
toggle is an involution on these two values, and from the initial state no
sequence of key events ever produces a third value. -/
theorem focus_toggle_two_state (app : App) (k : KeyEvent) (ks : List KeyEvent)
    (hk : k.code = KeyCode.Up ∨ k.code = KeyCode.Down)
    (hp : app.focused_pane = 0 ∨ app.focused_pane = 1) :
    (handle_key_events app k).1.focused_pane =
      (if app.focused_pane = 0 then 1 else 0) ∧
    (handle_key_events (handle_key_events app k).1 k).1.focused_pane =
      app.focused_pane ∧
    ((run_keys initApp ks).focused_pane = 0 ∨
      (run_keys initApp ks).focused_pane = 1) := by
  obtain ⟨code, ctrl⟩ := k
  refine ⟨?_, ?_, run_keys_pane ks initApp (Or.inl rfl)⟩
  · rcases hk with h | h <;> simp_all [handle_key_events]
  · rcases hk with h | h <;> rcases hp with hp | hp <;>
      simp_all [handle_key_events]

/-- Witness for C8: Up from the initial state, plus a one-Down run. -/
theorem focus_toggle_two_state_witness :
    (handle_key_events initApp ⟨KeyCode.Up, false⟩).1.focused_pane =
      (if initApp.focused_pane = 0 then 1 else 0) ∧
    (handle_key_events (handle_key_events initApp ⟨KeyCode.Up, false⟩).1
        ⟨KeyCode.Up, false⟩).1.focused_pane = initApp.focused_pane ∧
    ((run_keys initApp [⟨KeyCode.Down, false⟩]).focused_pane = 0 ∨
      (run_keys initApp [⟨KeyCode.Down, false⟩]).focused_pane = 1) :=
  focus_toggle_two_state initApp ⟨KeyCode.Up, false⟩ [⟨KeyCode.Down, false⟩]
    (Or.inl rfl) (Or.inl rfl)

set_option maxRecDepth 100000 in
/-- C9: in the system prompt of `imagine_command`, the line appended for a
configured input hint uses the very wording "An output path has been
provided, it is ..." used for the output hint, so with both hints set the
prompt carries two such lines; and the fixed base prompt never mentions an
input path. -/
theorem imagine_prompt_output_wording (ak bu mi i o : List Char) :
    imagine_system_prompt ⟨ak, bu, mi, some i, some o⟩ =
      (imagineBasePrompt ++
        (("An output path has been provided, it is ").data ++ i ++ ("\n").data)) ++
        (("An output path has been provided, it is ").data ++ o ++ ("\n").data) ∧
    containsSubstr ("input path").data imagineBasePrompt = false :=
  ⟨rfl, by decide⟩

/-- C10: a successful completion call whose decoded choices list is empty
makes the background task post the single event `CompletionError` with
message "No response received"; a safety check in the same situation posts
the single event `SafetyCheckError` with message "No safety check response
received". -/
theorem empty_choices_error_events :
    completion_task_event (completion_result (CompletionOutcome.ok ⟨[]⟩)) =
        AppEvent.CompletionError ("No response received").data ∧
    safety_task_event (completion_result (CompletionOutcome.ok ⟨[]⟩)) =
        AppEvent.SafetyCheckError ("No safety check response received").data :=
  ⟨rfl, rfl⟩

end Uhh
